import Mathlib

/-!
Shallow embedding of the data model in src/catalog/models.py (a Django
model layer for a small library-lending application): the five entity
records, the loan-status enumeration, the derived helpers (string
representation, genre summary, overdue predicate), and the deletion
semantics declared by the on_delete policy of each foreign key.
-/

namespace Catalog

/-- Calendar date, as Python datetime.date: a (year, month, day) triple. -/
structure Date where
  year : Nat
  month : Nat
  day : Nat
deriving DecidableEq, Repr

/-- Strict order on dates: Python datetime.date compares lexicographically
by (year, month, day). -/
def Date.lt (a b : Date) : Bool :=
  decide (a.year < b.year) ||
    (a.year == b.year &&
      (decide (a.month < b.month) || (a.month == b.month && decide (a.day < b.day))))

/-- Genre (models.py line 12): a literary category with a name field; the
surrogate primary key Django generates is modelled as id. -/
structure Genre where
  id : Nat
  name : String
deriving DecidableEq, Repr

/-- Language (models.py line 21): a natural language with a name field. -/
structure Language where
  id : Nat
  name : String
deriving DecidableEq, Repr

/-- Author (models.py line 59): name fields plus optional fullname and
life dates; id is the generated surrogate key. -/
structure Author where
  id : Nat
  first_name : String
  last_name : String
  fullname : Option String
  date_of_birth : Option Date
  date_of_death : Option Date
deriving DecidableEq, Repr

/-- Book (models.py line 28): author is a required foreign key to Author
with on_delete=CASCADE (line 35); genre is a many-to-many collection of
Genre, modelled as the list of Genre records the relation yields in the
order the ORM returns them; language is a nullable foreign key to
Language with on_delete=SET_NULL (line 43). -/
structure Book where
  id : Nat
  title : String
  author : Nat
  summary : String
  isbn : String
  genre : List Genre
  language : Option Nat
deriving DecidableEq, Repr

/-- BookInstance (models.py line 76): one physical copy of a book. id is
the UUID primary key (line 77), modelled as its string form; book is a
nullable foreign key to Book with on_delete=SET_NULL (line 78); borrower
is a nullable foreign key to User with on_delete=SET_NULL (line 81),
modelled by the user id; status is the one-character CharField of line
90; language is a nullable foreign key to Language with
on_delete=SET_NULL (line 91). -/
structure BookInstance where
  id : String
  book : Option Nat
  imprint : String
  due_back : Option Date
  borrower : Option Nat
  status : String
  language : Option Nat
deriving DecidableEq, Repr

/-- The LOAN_STATUS choices tuple of models.py lines 83 to 88, verbatim:
each pair is (stored one-character tag, display label). The label of tag
"m" is spelled "Maintenace" in the source, without the second n. -/
def LOAN_STATUS : List (String × String) :=
  [("m", "Maintenace"),
   ("o", "On loan"),
   ("a", "Available"),
   ("r", "Reserved")]

/-- Display label of a stored status tag: the lookup Django performs for
get_status_display over the declared choices. -/
def displayStatus (tag : String) : Option String :=
  (LOAN_STATUS.find? (fun p => p.1 == tag)).map Prod.snd

/-- The blank=True option declared on the status field (models.py line 90). -/
def statusBlank : Bool := true

/-- The default="m" option declared on the status field (models.py line 90). -/
def statusDefault : String := "m"

/-- The max_length=1 option declared on the status field (models.py line 90). -/
def statusMaxLength : Nat := 1

/-- The values Django treats as empty for a CharField (None is not
representable for a non-null text column, so only the empty string). -/
def statusEmptyValues : List String := [""]

/-- Validation of a value for the status field, following Django field
validation semantics for the options declared at models.py line 90
(max_length=1, choices=LOAN_STATUS, blank=True): for a value in
empty_values the choices check is skipped and blank=True suppresses the
blank error, so the empty string is accepted; a non-empty value is
accepted exactly when it fits max_length and is one of the declared
choice tags. Django runs this at validation time (full_clean), not at
construction. -/
def validateStatus (v : String) : Bool :=
  if statusEmptyValues.contains v then statusBlank
  else decide (v.length ≤ statusMaxLength) && LOAN_STATUS.any (fun p => p.1 == v)

/-- The is_overdue property of BookInstance (models.py lines 101 to 105):
returns True when due_back is set (a Python date is always truthy, None
is falsy) and date.today() is strictly later than due_back, else False.
The ambient clock value date.today() is passed as the explicit argument
today. -/
def BookInstance.is_overdue (self : BookInstance) (today : Date) : Bool :=
  match self.due_back with
  | some d => if Date.lt d today then true else false
  | none => false

/-- String representation of a BookInstance (models.py lines 97 to 99),
given the book table to dereference the foreign key. The source returns
the f-string interpolating self.id and self.book.title; when book is
null the attribute access raises AttributeError, and a dangling
reference raises DoesNotExist, both modelled as none. The stray tuple
expression on line 98 of the source has no effect. -/
def BookInstance.strRepr (self : BookInstance) (books : List Book) : Option String :=
  match self.book with
  | none => none
  | some bid =>
    match books.find? (fun b => b.id == bid) with
    | none => none
    | some b => some (self.id ++ " (" ++ b.title ++ ")")

/-- The display_genre helper of Book (models.py lines 52 to 54): the
names of the first three genres the relation yields, joined by a comma
and a space. -/
def Book.display_genre (self : Book) : String :=
  String.intercalate ", " ((self.genre.take 3).map Genre.name)

/-- Strict string order, computed over the character list; proved below
to agree with the String order instance. -/
def strLt (s t : String) : Bool := decide (s.toList < t.toList)

/-- String order (non-strict), computed over the character list; proved
below to agree with the String order instance. -/
def strLe (s t : String) : Bool := decide (s.toList ≤ t.toList)

/-- Comparison realising the Meta ordering of Author (models.py line 66):
ascending by last_name, ties broken ascending by first_name. -/
def authorLE (a b : Author) : Bool :=
  strLt a.last_name b.last_name ||
    (a.last_name == b.last_name && strLe a.first_name b.first_name)

/-- The ordering relation of the Author listing, as a proposition. -/
abbrev authorRel : Author → Author → Prop := fun a b => authorLE a b = true

/-- Default listing order of a collection of authors: sorted by the Meta
ordering (last_name, first_name), both ascending. -/
def authorOrdering (l : List Author) : List Author :=
  l.insertionSort authorRel

/-- Database state: one table per entity of the model layer. -/
structure DB where
  genres : List Genre
  languages : List Language
  authors : List Author
  books : List Book
  instances : List BookInstance
deriving DecidableEq, Repr

/-- Clearing of the book reference of an instance when the referenced
book disappears: the SET_NULL policy of models.py line 78. -/
def clearBookRef (bid : Nat) (i : BookInstance) : BookInstance :=
  if i.book == some bid then { i with book := none } else i

/-- Deletion of a Book: the book row is removed; every BookInstance
survives with its book reference cleared when it pointed at the deleted
book (on_delete=SET_NULL, models.py line 78). -/
def DB.deleteBook (db : DB) (bid : Nat) : DB :=
  { db with
    books := db.books.filter (fun b => !(b.id == bid)),
    instances := db.instances.map (clearBookRef bid) }

/-- Clearing of the book reference of an instance when its book is among
a set of deleted book ids. -/
def clearBookRefAmong (dead : List Nat) (i : BookInstance) : BookInstance :=
  match i.book with
  | some bid => if dead.contains bid then { i with book := none } else i
  | none => i

/-- Deletion of an Author: the author row is removed and every Book whose
author field references it is deleted with it (on_delete=CASCADE,
models.py line 35); the cascaded book deletions in turn clear the book
reference of the instances of those books (on_delete=SET_NULL, models.py
line 78). -/
def DB.deleteAuthor (db : DB) (aid : Nat) : DB :=
  { db with
    authors := db.authors.filter (fun a => !(a.id == aid)),
    books := db.books.filter (fun b => !(b.author == aid)),
    instances := db.instances.map
      (clearBookRefAmong ((db.books.filter (fun b => b.author == aid)).map Book.id)) }

/-- Clearing of the language reference of a Book (on_delete=SET_NULL,
models.py line 43). -/
def clearBookLang (lid : Nat) (b : Book) : Book :=
  if b.language == some lid then { b with language := none } else b

/-- Clearing of the language reference of a BookInstance
(on_delete=SET_NULL, models.py line 91). -/
def clearInstanceLang (lid : Nat) (i : BookInstance) : BookInstance :=
  if i.language == some lid then { i with language := none } else i

/-- Deletion of a Language: the language row is removed; every Book and
every BookInstance survives, with its language reference cleared when it
pointed at the deleted language (on_delete=SET_NULL, models.py lines 43
and 91). -/
def DB.deleteLanguage (db : DB) (lid : Nat) : DB :=
  { db with
    languages := db.languages.filter (fun g => !(g.id == lid)),
    books := db.books.map (clearBookLang lid),
    instances := db.instances.map (clearInstanceLang lid) }

/-- The UUID primary keys of the instance table are pairwise distinct:
the uniqueness the primary_key=True declaration of models.py line 77
enforces. -/
abbrev instanceIdsDistinct (db : DB) : Prop :=
  (db.instances.map BookInstance.id).Nodup

/-- Creation of a BookInstance: the fresh row carries the UUID generated
for it at creation (default=uuid.uuid4, models.py line 77); since id is
the primary key, an insert whose id already exists in the table is
rejected. -/
def DB.createBookInstance (db : DB) (i : BookInstance) : Option DB :=
  if db.instances.any (fun j => j.id == i.id) then none
  else some { db with instances := db.instances ++ [i] }

/-- Concrete book referencing author 1 and language 5, for witnesses. -/
def bookB1 : Book :=
  { id := 10, title := "B1", author := 1, summary := "s", isbn := "111",
    genre := [], language := some 5 }

/-- Concrete book referencing author 2 and no language, for witnesses. -/
def bookB2 : Book :=
  { id := 20, title := "B2", author := 2, summary := "t", isbn := "222",
    genre := [], language := none }

/-- Concrete copy of bookB1 due back on 2024-01-10, the date of the
overdue examples of the specification. -/
def instDue : BookInstance :=
  { id := "u1", book := some 10, imprint := "imp", due_back := some ⟨2024, 1, 10⟩,
    borrower := none, status := "o", language := some 5 }

/-- Concrete copy with no book reference and no due date. -/
def instNoDue : BookInstance :=
  { id := "u2", book := none, imprint := "imp2", due_back := none,
    borrower := none, status := "a", language := none }

/-- Concrete copy with the same due_back as instDue but every other field
different. -/
def instAlt : BookInstance :=
  { id := "u3", book := none, imprint := "other", due_back := some ⟨2024, 1, 10⟩,
    borrower := some 7, status := "m", language := none }

/-- Concrete database state for witnesses. -/
def exDB : DB :=
  { genres := [], languages := [⟨5, "French"⟩],
    authors := [⟨1, "John", "Doe", none, none, none⟩, ⟨2, "Anna", "Smith", none, none, none⟩],
    books := [bookB1, bookB2], instances := [instDue, instNoDue] }

/-- The database state after inserting instAlt into exDB. -/
def exDB2 : DB := { exDB with instances := exDB.instances ++ [instAlt] }

/-- Concrete book with four genres, the truncation example of the
specification. -/
def bookGenres : Book :=
  { id := 30, title := "G", author := 1, summary := "u", isbn := "333",
    genre := [⟨1, "Fantasy"⟩, ⟨2, "Horror"⟩, ⟨3, "Drama"⟩, ⟨4, "Poetry"⟩],
    language := none }

/-- A reordering of the genre collection of bookGenres. -/
def genresPerm : List Genre := [⟨4, "Poetry"⟩, ⟨2, "Horror"⟩, ⟨1, "Fantasy"⟩, ⟨3, "Drama"⟩]

/-- The authors of the ordering example of the specification. -/
def authSmithAnna : Author := ⟨1, "Anna", "Smith", none, none, none⟩

/-- Second author of the ordering example. -/
def authDoeJohn : Author := ⟨2, "John", "Doe", none, none, none⟩

/-- Third author of the ordering example. -/
def authSmithBen : Author := ⟨3, "Ben", "Smith", none, none, none⟩

/-- The author collection of the ordering example, unsorted. -/
def exAuthors : List Author := [authSmithAnna, authDoeJohn, authSmithBen]

instance : IsTotal Author authorRel := by
  constructor
  intro a b
  simp only [authorRel, authorLE, Bool.or_eq_true, Bool.and_eq_true, beq_iff_eq,
    strLt, strLe, decide_eq_true_eq, ← String.lt_iff_toList_lt, ← String.le_iff_toList_le]
  rcases lt_trichotomy a.last_name b.last_name with h | h | h
  · exact Or.inl (Or.inl h)
  · rcases le_total a.first_name b.first_name with hf | hf
    · exact Or.inl (Or.inr ⟨h, hf⟩)
    · exact Or.inr (Or.inr ⟨h.symm, hf⟩)
  · exact Or.inr (Or.inl h)

instance : IsTrans Author authorRel := by
  constructor
  intro a b c hab hbc
  simp only [authorRel, authorLE, Bool.or_eq_true, Bool.and_eq_true, beq_iff_eq,
    strLt, strLe, decide_eq_true_eq, ← String.lt_iff_toList_lt, ← String.le_iff_toList_le]
    at hab hbc ⊢
  rcases hab with h1 | ⟨h1, h1f⟩
  · rcases hbc with h2 | ⟨h2, h2f⟩
    · exact Or.inl (h1.trans h2)
    · exact Or.inl (lt_of_lt_of_le h1 (le_of_eq h2))
  · rcases hbc with h2 | ⟨h2, h2f⟩
    · exact Or.inl (lt_of_le_of_lt (le_of_eq h1) h2)
    · exact Or.inr ⟨h1.trans h2, h1f.trans h2f⟩

/-- The computable strict string comparison agrees with the String order. -/
theorem strLt_iff (s t : String) : strLt s t = true ↔ s < t := by
  simp [strLt, String.lt_iff_toList_lt]

/-- The computable string comparison agrees with the String order. -/
theorem strLe_iff (s t : String) : strLe s t = true ↔ s ≤ t := by
  simp [strLe, String.le_iff_toList_le]

/-- No date is strictly later than itself. -/
theorem Date.lt_self (d : Date) : Date.lt d d = false := by
  simp [Date.lt]

/-- Mapping an id-preserving function over the instance table leaves the
id column unchanged. -/
theorem map_ids_of_preserve {f : BookInstance → BookInstance}
    (hf : ∀ i, (f i).id = i.id) (l : List BookInstance) :
    (l.map f).map BookInstance.id = l.map BookInstance.id := by
  induction l with
  | nil => rfl
  | cons x xs ih => simp [hf, ih]

/-- Clearing a book reference does not change the primary key. -/
theorem clearBookRef_id (bid : Nat) (i : BookInstance) :
    (clearBookRef bid i).id = i.id := by
  unfold clearBookRef
  split <;> rfl

/-- Clearing a book reference among a set does not change the primary key. -/
theorem clearBookRefAmong_id (dead : List Nat) (i : BookInstance) :
    (clearBookRefAmong dead i).id = i.id := by
  unfold clearBookRefAmong
  cases i.book with
  | none => rfl
  | some b =>
    by_cases h : b ∈ dead
    · simp [h]
    · simp [h]

/-- Clearing a language reference does not change the primary key. -/
theorem clearInstanceLang_id (lid : Nat) (i : BookInstance) :
    (clearInstanceLang lid i).id = i.id := by
  unfold clearInstanceLang
  split <;> rfl

/-- C1: for every BookInstance and every current date today, is_overdue
is true exactly when due_back is set and today is strictly later than
due_back; when today equals due_back it is false, and when due_back is
unset it is false. -/
theorem is_overdue_spec (b : BookInstance) (today : Date) :
    (b.is_overdue today = true ↔ ∃ d, b.due_back = some d ∧ Date.lt d today = true) ∧
    (∀ d, b.due_back = some d → today = d → b.is_overdue today = false) ∧
    (b.due_back = none → b.is_overdue today = false) := by
  refine ⟨?_, ?_, ?_⟩
  · cases hdb : b.due_back with
    | none => simp [BookInstance.is_overdue, hdb]
    | some d =>
      cases h : Date.lt d today <;> simp [BookInstance.is_overdue, hdb, h]
  · intro d hdb ht
    subst ht
    simp [BookInstance.is_overdue, hdb, Date.lt_self]
  · intro h
    simp [BookInstance.is_overdue, h]

/-- Witness for C1: the specification examples with due_back 2024-01-10,
plus a copy with no due date. -/
theorem is_overdue_spec_witness :
    instDue.is_overdue ⟨2024, 1, 11⟩ = true ∧
    instDue.is_overdue ⟨2024, 1, 10⟩ = false ∧
    instDue.is_overdue ⟨2024, 1, 9⟩ = false ∧
    instNoDue.is_overdue ⟨2024, 1, 11⟩ = false := by
  refine ⟨?_, ?_, ?_, ?_⟩
  · exact (is_overdue_spec instDue ⟨2024, 1, 11⟩).1.mpr ⟨⟨2024, 1, 10⟩, rfl, by decide⟩
  · exact (is_overdue_spec instDue ⟨2024, 1, 10⟩).2.1 ⟨2024, 1, 10⟩ rfl rfl
  · decide
  · exact (is_overdue_spec instNoDue ⟨2024, 1, 11⟩).2.2 rfl

/-- C2: is_overdue is a deterministic function of the due_back field and
the evaluation date alone: two instances that agree on due_back,
evaluated at the same date, give the same result, whatever their status,
borrower, book, imprint, id or language fields. -/
theorem is_overdue_noninterference (b1 b2 : BookInstance) (t1 t2 : Date)
    (hdb : b1.due_back = b2.due_back) (ht : t1 = t2) :
    b1.is_overdue t1 = b2.is_overdue t2 := by
  subst ht
  unfold BookInstance.is_overdue
  rw [hdb]

/-- Witness for C2: two concrete instances sharing only due_back agree on
is_overdue, while differing in every other field. -/
theorem is_overdue_noninterference_witness :
    instDue.is_overdue ⟨2024, 1, 11⟩ = instAlt.is_overdue ⟨2024, 1, 11⟩ ∧
    instDue.status ≠ instAlt.status ∧ instDue.book ≠ instAlt.book ∧
    instDue.borrower ≠ instAlt.borrower ∧ instDue.imprint ≠ instAlt.imprint ∧
    instDue.id ≠ instAlt.id ∧ instDue.language ≠ instAlt.language :=
  ⟨is_overdue_noninterference instDue instAlt ⟨2024, 1, 11⟩ ⟨2024, 1, 11⟩ rfl rfl,
    by decide, by decide, by decide, by decide, by decide, by decide⟩

/-- C3: the string representation of a BookInstance whose book reference
resolves is the id followed by the book title in parentheses; when the
book reference is null the operation produces no string, modelling the
AttributeError the source raises. -/
theorem strRepr_spec (self : BookInstance) (books : List Book) :
    (∀ bid b, self.book = some bid → books.find? (fun x => x.id == bid) = some b →
      self.strRepr books = some (self.id ++ " (" ++ b.title ++ ")")) ∧
    (self.book = none → self.strRepr books = none) := by
  constructor
  · intro bid b hb hf
    simp [BookInstance.strRepr, hb, hf]
  · intro h
    simp [BookInstance.strRepr, h]

/-- Witness for C3: a resolving copy displays as id plus title in
parentheses; a copy with a null book reference produces no string. -/
theorem strRepr_spec_witness :
    instDue.strRepr exDB.books = some "u1 (B1)" ∧
    instNoDue.strRepr exDB.books = none := by
  constructor
  · exact ((strRepr_spec instDue exDB.books).1 10 bookB1 rfl (by decide)).trans (by decide)
  · exact (strRepr_spec instNoDue exDB.books).2 rfl

/-- C5: the LOAN_STATUS enumeration has exactly four tags and the code
labels tag "o" as "On loan", "a" as "Available" and "r" as "Reserved";
but the label of tag "m" is the misspelled "Maintenace", not
"Maintenance" as the specification states. -/
theorem loan_status_labels :
    LOAN_STATUS.length = 4 ∧
    displayStatus "m" = some "Maintenace" ∧
    displayStatus "m" ≠ some "Maintenance" ∧
    displayStatus "o" = some "On loan" ∧
    displayStatus "a" = some "Available" ∧
    displayStatus "r" = some "Reserved" := by decide

/-- C4: deleting an Author removes exactly the Books whose author field
references it (cascade), and deleting a Book deletes no BookInstance:
the table keeps its size, an instance that referenced the deleted book
survives with the reference cleared to none and all other fields
unchanged, and any other instance is untouched. -/
theorem delete_author_book_spec (db : DB) (aid bid : Nat) :
    (∀ b, b ∈ (db.deleteAuthor aid).books → b.author ≠ aid) ∧
    (∀ b, b ∈ db.books → b.author ≠ aid → b ∈ (db.deleteAuthor aid).books) ∧
    ((db.deleteBook bid).instances.length = db.instances.length) ∧
    (∀ i, i ∈ db.instances → i.book = some bid →
      { i with book := none } ∈ (db.deleteBook bid).instances) ∧
    (∀ i, i ∈ db.instances → i.book ≠ some bid → i ∈ (db.deleteBook bid).instances) := by
  refine ⟨?_, ?_, ?_, ?_, ?_⟩
  · intro b hb
    have h := (List.mem_filter.mp hb).2
    simpa using h
  · intro b hb hne
    exact List.mem_filter.mpr ⟨hb, by simpa using hne⟩
  · simp [DB.deleteBook]
  · intro i hi hbk
    exact List.mem_map.mpr ⟨i, hi, by simp [clearBookRef, hbk]⟩
  · intro i hi hbk
    refine List.mem_map.mpr ⟨i, hi, ?_⟩
    unfold clearBookRef
    rw [if_neg]
    simpa using hbk

/-- Witness for C4: in the concrete database, deleting author 1 keeps the
book of author 2 and drops the book of author 1, and deleting book 10
keeps both instances, clearing the reference of the one that pointed at
it. -/
theorem delete_author_book_witness :
    bookB2 ∈ (exDB.deleteAuthor 1).books ∧
    (bookB1 ∈ (exDB.deleteAuthor 1).books → False) ∧
    { instDue with book := none } ∈ (exDB.deleteBook 10).instances ∧
    instNoDue ∈ (exDB.deleteBook 10).instances := by
  refine ⟨?_, ?_, ?_, ?_⟩
  · exact (delete_author_book_spec exDB 1 10).2.1 bookB2 (by decide) (by decide)
  · intro h
    exact absurd rfl ((delete_author_book_spec exDB 1 10).1 bookB1 h)
  · exact (delete_author_book_spec exDB 1 10).2.2.2.1 instDue (by decide) rfl
  · exact (delete_author_book_spec exDB 1 10).2.2.2.2 instNoDue (by decide) (by decide)

/-- C6 counterexample: the empty string is outside the four enumerated
status tags yet passes validation of the status field, because the field
declares blank=True; so not every value outside the four tags is
rejected. -/
theorem status_validation_cex :
    validateStatus "" = true ∧ LOAN_STATUS.all (fun p => !(p.1 == "")) = true := by decide

/-- C6 amended: validation of the status field accepts exactly the four
enumerated tags and, because the field declares blank=True, also the
empty string; a newly created instance defaults to tag "m". -/
theorem status_validation_amended :
    (∀ v : String, validateStatus v = true ↔ (v = "" ∨ v ∈ LOAN_STATUS.map Prod.fst)) ∧
    statusDefault = "m" ∧ validateStatus statusDefault = true := by
  refine ⟨?_, rfl, by decide⟩
  intro v
  by_cases hv : v = ""
  · subst hv
    simp [validateStatus, statusEmptyValues, statusBlank]
  · have hc : statusEmptyValues.contains v = false := by
      simp [statusEmptyValues]
      exact fun h => hv h
    simp only [validateStatus, hc, Bool.false_eq_true, if_false, Bool.and_eq_true,
      decide_eq_true_eq, List.any_eq_true, LOAN_STATUS, statusMaxLength]
    constructor
    · rintro ⟨hlen, p, hp, hpv⟩
      right
      simp only [List.mem_cons, List.not_mem_nil, or_false] at hp
      have hv' := (beq_iff_eq.mp hpv)
      rcases hp with h | h | h | h <;> subst h <;> simp [LOAN_STATUS, ← hv']
    · rintro (h | h)
      · exact absurd h hv
      · simp only [LOAN_STATUS, List.map_cons, List.map_nil, List.mem_cons,
          List.not_mem_nil, or_false] at h
        rcases h with h | h | h | h <;> subst h <;> refine ⟨by decide, ?_⟩
        · exact ⟨("m", "Maintenace"), by decide, by decide⟩
        · exact ⟨("o", "On loan"), by decide, by decide⟩
        · exact ⟨("a", "Available"), by decide, by decide⟩
        · exact ⟨("r", "Reserved"), by decide, by decide⟩

/-- C7: deleting a Language keeps every Book and every BookInstance (the
tables keep their sizes); an entity that referenced the deleted language
survives with the language field cleared to none and every other field
unchanged, and an entity that did not reference it is untouched. -/
theorem delete_language_spec (db : DB) (lid : Nat) :
    ((db.deleteLanguage lid).books.length = db.books.length) ∧
    ((db.deleteLanguage lid).instances.length = db.instances.length) ∧
    (∀ b, b ∈ db.books → b.language = some lid →
      { b with language := none } ∈ (db.deleteLanguage lid).books) ∧
    (∀ b, b ∈ db.books → b.language ≠ some lid → b ∈ (db.deleteLanguage lid).books) ∧
    (∀ i, i ∈ db.instances → i.language = some lid →
      { i with language := none } ∈ (db.deleteLanguage lid).instances) ∧
    (∀ i, i ∈ db.instances → i.language ≠ some lid →
      i ∈ (db.deleteLanguage lid).instances) := by
  refine ⟨?_, ?_, ?_, ?_, ?_, ?_⟩
  · simp [DB.deleteLanguage]
  · simp [DB.deleteLanguage]
  · intro b hb hl
    exact List.mem_map.mpr ⟨b, hb, by simp [clearBookLang, hl]⟩
  · intro b hb hl
    refine List.mem_map.mpr ⟨b, hb, ?_⟩
    unfold clearBookLang
    rw [if_neg]
    simpa using hl
  · intro i hi hl
    exact List.mem_map.mpr ⟨i, hi, by simp [clearInstanceLang, hl]⟩
  · intro i hi hl
    refine List.mem_map.mpr ⟨i, hi, ?_⟩
    unfold clearInstanceLang
    rw [if_neg]
    simpa using hl

/-- Witness for C7: deleting language 5 from the concrete database keeps
book 10 with its language cleared, keeps book 20 untouched, and keeps
the instance that referenced language 5 with its language cleared. -/
theorem delete_language_witness :
    { bookB1 with language := none } ∈ (exDB.deleteLanguage 5).books ∧
    bookB2 ∈ (exDB.deleteLanguage 5).books ∧
    { instDue with language := none } ∈ (exDB.deleteLanguage 5).instances ∧
    instNoDue ∈ (exDB.deleteLanguage 5).instances := by
  refine ⟨?_, ?_, ?_, ?_⟩
  · exact (delete_language_spec exDB 5).2.2.1 bookB1 (by decide) rfl
  · exact (delete_language_spec exDB 5).2.2.2.1 bookB2 (by decide) (by decide)
  · exact (delete_language_spec exDB 5).2.2.2.2.1 instDue (by decide) rfl
  · exact (delete_language_spec exDB 5).2.2.2.2.2 instNoDue (by decide) (by decide)

/-- C8: display_genre joins the names of at most the first three genres
of the collection with a comma and a space: it equals the comma-join of
the first three names, that name list never has more than three entries,
and for a book with at least four genres any reordering of the genre
collection still yields exactly three names, comma-joined. -/
theorem display_genre_spec (self : Book) :
    (self.display_genre = String.intercalate ", " ((self.genre.map Genre.name).take 3)) ∧
    (((self.genre.take 3).map Genre.name).length ≤ 3) ∧
    (4 ≤ self.genre.length → ∀ g2 : List Genre, self.genre.Perm g2 →
      (((g2.take 3).map Genre.name).length = 3 ∧
        ({ self with genre := g2 } : Book).display_genre =
          String.intercalate ", " ((g2.take 3).map Genre.name))) := by
  refine ⟨?_, ?_, ?_⟩
  · simp [Book.display_genre, List.map_take]
  · simp only [List.length_map, List.length_take]
    omega
  · intro h4 g2 hp
    have hlen : self.genre.length = g2.length := hp.length_eq
    refine ⟨?_, ?_⟩
    · simp only [List.length_map, List.length_take]
      omega
    · simp [Book.display_genre]

/-- Witness for C8: the four-genre example book displays the first three
genre names, and a reordering of its genres still yields three names. -/
theorem display_genre_spec_witness :
    bookGenres.display_genre = "Fantasy, Horror, Drama" ∧
    ((genresPerm.take 3).map Genre.name).length = 3 ∧
    ({ bookGenres with genre := genresPerm } : Book).display_genre = "Poetry, Horror, Fantasy" := by
  have h := (display_genre_spec bookGenres).2.2 (by decide) genresPerm (by decide)
  exact ⟨by decide, h.1, h.2.trans (by decide)⟩

/-- C9: the default Author listing is ascending by the pair (last_name,
first_name): authorOrdering sorts by authorRel, which agrees with the
lexicographic comparison of last_name then first_name under the standard
string order, the result is a permutation of the input, and the concrete
example of the specification sorts as stated. -/
theorem author_ordering_spec (l : List Author) :
    List.Sorted authorRel (authorOrdering l) ∧
    (authorOrdering l).Perm l ∧
    (∀ a b : Author, authorRel a b ↔
      (a.last_name < b.last_name ∨
        (a.last_name = b.last_name ∧ a.first_name ≤ b.first_name))) ∧
    authorOrdering exAuthors = [authDoeJohn, authSmithAnna, authSmithBen] := by
  refine ⟨List.sorted_insertionSort authorRel l, List.perm_insertionSort authorRel l,
    ?_, by decide⟩
  intro a b
  simp [authorRel, authorLE, strLt_iff, strLe_iff]

/-- C10: the instance table keeps pairwise-distinct UUID primary keys:
creation stores the row under the id generated for it and rejects an id
already present; no deletion operation changes any stored id; and
distinctness of the id column is preserved by every operation. -/
theorem instance_id_spec (db db2 : DB) (i : BookInstance) (aid bid lid : Nat)
    (hdup : instanceIdsDistinct db) :
    (db.createBookInstance i = some db2 → (instanceIdsDistinct db2 ∧ i ∈ db2.instances)) ∧
    ((db.instances.any (fun j => j.id == i.id)) = true → db.createBookInstance i = none) ∧
    ((db.deleteAuthor aid).instances.map BookInstance.id = db.instances.map BookInstance.id) ∧
    ((db.deleteBook bid).instances.map BookInstance.id = db.instances.map BookInstance.id) ∧
    ((db.deleteLanguage lid).instances.map BookInstance.id = db.instances.map BookInstance.id) ∧
    instanceIdsDistinct (db.deleteAuthor aid) ∧
    instanceIdsDistinct (db.deleteBook bid) ∧
    instanceIdsDistinct (db.deleteLanguage lid) := by
  have h3 : (db.deleteAuthor aid).instances.map BookInstance.id
      = db.instances.map BookInstance.id :=
    map_ids_of_preserve (clearBookRefAmong_id _) _
  have h4 : (db.deleteBook bid).instances.map BookInstance.id
      = db.instances.map BookInstance.id :=
    map_ids_of_preserve (clearBookRef_id _) _
  have h5 : (db.deleteLanguage lid).instances.map BookInstance.id
      = db.instances.map BookInstance.id :=
    map_ids_of_preserve (clearInstanceLang_id _) _
  refine ⟨?_, ?_, h3, h4, h5, ?_, ?_, ?_⟩
  · intro hc
    unfold DB.createBookInstance at hc
    by_cases hany : db.instances.any (fun j => j.id == i.id) = true
    · rw [if_pos hany] at hc
      cases hc
    · rw [if_neg hany] at hc
      have hnotin : i.id ∉ db.instances.map BookInstance.id := by
        intro hmem
        rcases List.mem_map.mp hmem with ⟨j, hj, hjid⟩
        exact hany (List.any_eq_true.mpr ⟨j, hj, by simp [hjid]⟩)
      injection hc with h
      subst h
      constructor
      · show ((db.instances ++ [i]).map BookInstance.id).Nodup
        rw [List.map_append]
        refine List.Nodup.append hdup (List.nodup_singleton _) ?_
        intro x hx hxx
        simp only [List.map_cons, List.map_nil, List.mem_singleton] at hxx
        subst hxx
        exact hnotin hx
      · exact List.mem_append_right _ (List.mem_singleton.mpr rfl)
  · intro hany
    unfold DB.createBookInstance
    rw [if_pos hany]
  · show ((db.deleteAuthor aid).instances.map BookInstance.id).Nodup
    rw [h3]
    exact hdup
  · show ((db.deleteBook bid).instances.map BookInstance.id).Nodup
    rw [h4]
    exact hdup
  · show ((db.deleteLanguage lid).instances.map BookInstance.id).Nodup
    rw [h5]
    exact hdup

/-- Witness for C10: inserting a fresh instance into the concrete
database keeps the id column duplicate-free and stores the row, and
deleting a book changes no stored id. -/
theorem instance_id_spec_witness :
    instanceIdsDistinct exDB2 ∧ instAlt ∈ exDB2.instances ∧
    (exDB.deleteBook 10).instances.map BookInstance.id
      = exDB.instances.map BookInstance.id ∧
    instanceIdsDistinct (exDB.deleteBook 10) := by
  have h := instance_id_spec exDB exDB2 instAlt 1 10 5 (by decide)
  have hc := h.1 (by decide)
  exact ⟨hc.1, hc.2, h.2.2.2.1, h.2.2.2.2.2.2.1⟩

end Catalog
